import Mathlib

/-!
Verification development for the MailChimp OAuth broker backend
(Express/TypeScript, files src/index.ts, src/routes/mailchimp.ts,
src/services/mailchimpService.ts, src/types/mailchimp.ts,
src/config/mailchimp.ts).

The shallow embedding below translates the data model, the session store,
the MailChimpService wrapper methods and the HTTP route handlers into
executable Lean definitions.  Outbound HTTP (axios) is modelled by an
explicit oracle (structure Upstream) whose fields give, for each provider
endpoint, the response the provider would return to a call with the given
arguments; a raw provider failure carries the raw diagnostic body
(structure AxiosError).  The module-level mutable map userSessions is
modelled by explicit state passing of a single SessionStore value, shared
by every MailChimpService instance exactly as the module-level const is.
Nondeterministic inputs of the JavaScript runtime (req.ip, Date.now(),
Math.random().toString(36)) are passed in as explicit request fields.
-/

/-- JavaScript truthiness of an optional string: undefined and the empty
string are falsy, every other string is truthy. -/
def falsy : Option String → Bool
  | none => true
  | some s => s == ""

/-- JavaScript truthiness, positive form. -/
def truthy (o : Option String) : Bool := !(falsy o)

/-- The JavaScript expression a or-else b on an optional string: yields the
string when it is present and non-empty (truthy), the default otherwise. -/
def jsOr (o : Option String) (d : String) : String :=
  match o with
  | some s => if s == "" then d else s
  | none => d

/-- Environment variables read by getMailChimpConfig
(process.env.MAILCHIMP_CLIENT_ID and friends); absent is none. -/
structure Env where
  clientId : Option String
  clientSecret : Option String
  redirectUri : Option String
deriving DecidableEq, Repr

/-- MailChimpConfig from src/types/mailchimp.ts. -/
structure MailChimpConfig where
  clientId : String
  clientSecret : String
  redirectUri : String
deriving DecidableEq, Repr

/-- getMailChimpConfig from src/config/mailchimp.ts: each field is the
environment variable or-else a hardcoded default. -/
def getMailChimpConfig (env : Env) : MailChimpConfig :=
  ⟨jsOr env.clientId "741151044464",
   jsOr env.clientSecret "274283b1a39ed2a0316f248d97a8e7e58e42dfa153667bb8c0",
   jsOr env.redirectUri "http://127.0.0.1:3001/oauth-verify/mailchimp"⟩

/-- MailChimpTokenResponse from src/types/mailchimp.ts. -/
structure MailChimpTokenResponse where
  access_token : String
  token_type : String
  expires_in : Option Int
  refresh_token : Option String
  scope : Option String
deriving DecidableEq, Repr

/-- The login sub-object of MailChimpMetadata. -/
structure MailChimpLogin where
  email : String
  login_id : String
  login_name : String
  login_email : String
deriving DecidableEq, Repr

/-- MailChimpMetadata from src/types/mailchimp.ts. -/
structure MailChimpMetadata where
  dc : String
  role : String
  accountname : String
  user_id : Int
  login : MailChimpLogin
  api_endpoint : String
deriving DecidableEq, Repr

/-- UserSession from src/types/mailchimp.ts; connectedAt (a Date) is a
numeric timestamp. -/
structure UserSession where
  accessToken : String
  metadata : MailChimpMetadata
  connectedAt : Nat
deriving DecidableEq, Repr

/-- The module-level const userSessions = new Map of String to UserSession
in src/services/mailchimpService.ts, modelled extensionally: the store maps
each key to the record held for it, none when absent.  Only get, set and
delete are ever used on the map, so this captures all observable state. -/
def SessionStore : Type := String → Option UserSession

/-- The empty session store (the map at process start). -/
def emptyStore : SessionStore := fun _ => none

/-- Stats sub-object of a list entry. -/
structure ListStats where
  member_count : Int
deriving DecidableEq, Repr

/-- MailChimpList from src/types/mailchimp.ts. -/
structure MailChimpList where
  id : String
  name : String
  stats : ListStats
deriving DecidableEq, Repr

/-- MailChimpListsApiResponse from src/types/mailchimp.ts. -/
structure MailChimpListsApiResponse where
  lists : List MailChimpList
  total_items : Int
deriving DecidableEq, Repr

/-- Settings sub-object of MailChimpCampaignApiResponse. -/
structure CampaignSettings where
  subject_line : String
  title : String
  from_name : String
  reply_to : String
deriving DecidableEq, Repr

/-- MailChimpCampaignApiResponse from src/types/mailchimp.ts. -/
structure MailChimpCampaignApiResponse where
  id : String
  status : String
  type : String
  create_time : String
  settings : CampaignSettings
deriving DecidableEq, Repr

/-- The raw diagnostic of a failed axios call
(error.response.data or error.message): the provider error body. -/
structure AxiosError where
  body : String
deriving DecidableEq, Repr

/-- Oracle for the outbound HTTP calls the service makes through axios:
for each provider endpoint, the response the provider returns to a call
with the given arguments in the run being analysed. -/
structure Upstream where
  exchange : MailChimpConfig → String → Except AxiosError MailChimpTokenResponse
  metadata : String → Except AxiosError MailChimpMetadata
  lists : String → String → Except AxiosError MailChimpListsApiResponse
  create : String → String → String → String → String → String →
    Except AxiosError MailChimpCampaignApiResponse
  content : String → String → String → String → Except AxiosError Unit
  send : String → String → String → Except AxiosError Unit

/-- MailChimpService from src/services/mailchimpService.ts: the only
instance state is the private config captured at construction. -/
structure MailChimpService where
  config : MailChimpConfig

/-- new MailChimpService(): captures getMailChimpConfig of the ambient
environment. -/
def MailChimpService.make (env : Env) : MailChimpService :=
  ⟨getMailChimpConfig env⟩

/-- MailChimpService.exchangeCodeForToken: posts the code with the config
credentials to the OAuth token URL; on any axios failure the raw body is
only logged and a fixed Error message is thrown. -/
def MailChimpService.exchangeCodeForToken (svc : MailChimpService)
    (u : Upstream) (code : String) : Except String MailChimpTokenResponse :=
  match u.exchange svc.config code with
  | .ok r => .ok r
  | .error _ => .error "Failed to exchange code for token"

/-- MailChimpService.getUserMetadata: fetches the metadata URL with the
bearer token; fixed Error message on failure. -/
def MailChimpService.getUserMetadata (_svc : MailChimpService)
    (u : Upstream) (accessToken : String) : Except String MailChimpMetadata :=
  match u.metadata accessToken with
  | .ok r => .ok r
  | .error _ => .error "Failed to fetch user metadata"

/-- MailChimpService.storeUserSession: userSessions.set of a fresh record;
new Date() is the explicit clock argument now. -/
def MailChimpService.storeUserSession (_svc : MailChimpService)
    (store : SessionStore) (sessionId : String) (accessToken : String)
    (metadata : MailChimpMetadata) (now : Nat) : SessionStore :=
  fun k => if k = sessionId then some ⟨accessToken, metadata, now⟩ else store k

/-- MailChimpService.getUserSession: userSessions.get or-else null. -/
def MailChimpService.getUserSession (_svc : MailChimpService)
    (store : SessionStore) (sessionId : String) : Option UserSession :=
  store sessionId

/-- MailChimpService.removeUserSession: userSessions.delete. -/
def MailChimpService.removeUserSession (_svc : MailChimpService)
    (store : SessionStore) (sessionId : String) : SessionStore :=
  fun k => if k = sessionId then none else store k

/-- MailChimpService.getLists: fetches the datacenter-sharded lists URL;
fixed Error message on failure. -/
def MailChimpService.getLists (_svc : MailChimpService) (u : Upstream)
    (accessToken : String) (datacenter : String) :
    Except String MailChimpListsApiResponse :=
  match u.lists accessToken datacenter with
  | .ok r => .ok r
  | .error _ => .error "Failed to fetch email lists"

/-- MailChimpService.createCampaign: posts the campaign settings to the
datacenter-sharded campaigns URL; fixed Error message on failure. -/
def MailChimpService.createCampaign (_svc : MailChimpService) (u : Upstream)
    (accessToken : String) (datacenter : String) (listId : String)
    (subject : String) (fromName : String) (replyTo : String) :
    Except String MailChimpCampaignApiResponse :=
  match u.create accessToken datacenter listId subject fromName replyTo with
  | .ok r => .ok r
  | .error _ => .error "Failed to create campaign"

/-- MailChimpService.setCampaignContent: puts the html to the campaign
content URL; fixed Error message on failure. -/
def MailChimpService.setCampaignContent (_svc : MailChimpService)
    (u : Upstream) (accessToken : String) (datacenter : String)
    (campaignId : String) (htmlContent : String) : Except String Unit :=
  match u.content accessToken datacenter campaignId htmlContent with
  | .ok r => .ok r
  | .error _ => .error "Failed to set campaign content"

/-- MailChimpService.sendCampaign: posts to the campaign send-action URL;
fixed Error message on failure. -/
def MailChimpService.sendCampaign (_svc : MailChimpService) (u : Upstream)
    (accessToken : String) (datacenter : String) (campaignId : String) :
    Except String Unit :=
  match u.send accessToken datacenter campaignId with
  | .ok r => .ok r
  | .error _ => .error "Failed to send campaign"

/-- ApiResponse from src/types/mailchimp.ts: the uniform response envelope.
A missing message key is none; data is T or null (none models null and a
missing data key alike, since the handlers always write the key). -/
structure ApiResponse (α : Type) where
  success : Bool
  message : Option String
  data : Option α
deriving DecidableEq, Repr

/-- ConnectionStatus from src/types/mailchimp.ts. -/
structure ConnectionStatus where
  isConnected : Bool
  accountName : Option String
  userEmail : Option String
deriving DecidableEq, Repr

/-- ListsResponse from src/types/mailchimp.ts. -/
structure ListsResponse where
  lists : List MailChimpList
deriving DecidableEq, Repr

/-- CampaignResponse from src/types/mailchimp.ts. -/
structure CampaignResponse where
  campaignId : String
  status : String
  message : String
deriving DecidableEq, Repr

/-- Data payload of the connect and disconnect endpoints. -/
structure MessageData where
  message : String
deriving DecidableEq, Repr

/-- generateSessionId from src/index.ts and src/routes/mailchimp.ts:
req.ip, Date.now() and Math.random().toString(36) joined by dashes; the
runtime values are explicit arguments. -/
def generateSessionId (ip : String) (now : Nat) (rand : String) : String :=
  ip ++ "-" ++ toString now ++ "-" ++ rand

/-- getSessionId from src/routes/mailchimp.ts: the x-session-id request
header or-else a freshly generated identifier. -/
def getSessionId (headerSessionId : Option String) (generated : String) :
    String :=
  jsOr headerSessionId generated

/-- The request data a gated router endpoint reads: the x-session-id header
and the broker-generated identifier that getSessionId falls back to. -/
structure GatedReq where
  headerSessionId : Option String
  generated : String
deriving DecidableEq, Repr

/-- Result of a router handler that makes no campaign calls: HTTP status,
JSON body, and the session store after the handler ran. -/
structure GatedResult (α : Type) where
  status : Nat
  body : ApiResponse α
  store : SessionStore

/-- GET /api/mailchimp/connect: static success body, no state change. -/
def connectHandler : ApiResponse MessageData :=
  ⟨true, none, some ⟨"OAuth connection initiated"⟩⟩

/-- Request body and runtime inputs of POST /api/mailchimp/oauth/token. -/
structure OAuthTokenReq where
  code : Option String
  state : Option String
  headerSessionId : Option String
  ip : String
  now : Nat
  rand : String
deriving DecidableEq, Repr

/-- Result of POST /api/mailchimp/oauth/token: status, body, the
X-Session-Id response header when set, and the store afterwards. -/
structure OAuthTokenResult where
  status : Nat
  body : ApiResponse ConnectionStatus
  sessionHeader : Option String
  store : SessionStore

/-- POST /api/mailchimp/oauth/token from src/routes/mailchimp.ts: reject a
falsy code with 400; exchange the code, fetch metadata, store the session
under getSessionId, echo the identifier in the X-Session-Id header; any
thrown service error is caught and surfaced as a 500 with its message. -/
def oauthTokenHandler (svc : MailChimpService) (u : Upstream)
    (store : SessionStore) (req : OAuthTokenReq) : OAuthTokenResult :=
  if falsy req.code then
    ⟨400, ⟨false, some "Authorization code is required", none⟩, none, store⟩
  else
    match svc.exchangeCodeForToken u (req.code.getD "") with
    | .error msg => ⟨500, ⟨false, some msg, none⟩, none, store⟩
    | .ok tokenResponse =>
      match svc.getUserMetadata u tokenResponse.access_token with
      | .error msg => ⟨500, ⟨false, some msg, none⟩, none, store⟩
      | .ok metadata =>
        let sessionId := getSessionId req.headerSessionId
          (generateSessionId req.ip req.now req.rand)
        let newStore := svc.storeUserSession store sessionId
          tokenResponse.access_token metadata req.now
        ⟨200,
         ⟨true, none,
          some ⟨true, some metadata.accountname, some metadata.login.email⟩⟩,
         some sessionId, newStore⟩

/-- Query parameters and runtime inputs of GET /oauth-verify/mailchimp. -/
structure CallbackReq where
  code : Option String
  state : Option String
  error : Option String
  error_description : Option String
  ip : String
  now : Nat
  rand : String
deriving DecidableEq, Repr

/-- The redirect the OAuth callback issues to the frontend, structured:
either the error and error_description query parameters, or the success
parameters session_id, account_name and user_email.  URL assembly and
encodeURIComponent are presentation and not modelled. -/
inductive CallbackRedirect where
  | errorRedirect (error : String) (description : String) : CallbackRedirect
  | successRedirect (sessionId : String) (accountName : String)
      (userEmail : String) : CallbackRedirect
deriving DecidableEq, Repr

/-- Result of GET /oauth-verify/mailchimp: the redirect issued and the
session store after the handler ran. -/
structure CallbackResult where
  redirect : CallbackRedirect
  store : SessionStore

/-- GET /oauth-verify/mailchimp from src/index.ts: forward a provider
error, reject a falsy code, otherwise exchange the code, fetch metadata,
store the session under a freshly generated identifier and redirect with
success parameters; a thrown service error is caught and surfaced as a
processing_failed redirect carrying its message. -/
def callbackHandler (svc : MailChimpService) (u : Upstream)
    (store : SessionStore) (req : CallbackReq) : CallbackResult :=
  if truthy req.error then
    ⟨.errorRedirect (req.error.getD "")
      (jsOr req.error_description "OAuth authorization failed"), store⟩
  else if falsy req.code then
    ⟨.errorRedirect "missing_code" "Authorization code not received", store⟩
  else
    match svc.exchangeCodeForToken u (req.code.getD "") with
    | .error msg => ⟨.errorRedirect "processing_failed" msg, store⟩
    | .ok tokenResponse =>
      match svc.getUserMetadata u tokenResponse.access_token with
      | .error msg => ⟨.errorRedirect "processing_failed" msg, store⟩
      | .ok metadata =>
        let sessionId := generateSessionId req.ip req.now req.rand
        let newStore := svc.storeUserSession store sessionId
          tokenResponse.access_token metadata req.now
        ⟨.successRedirect sessionId metadata.accountname
          metadata.login.email, newStore⟩

/-- GET /api/mailchimp/status from src/routes/mailchimp.ts: an absent
session is the normal isConnected false success, never an error. -/
def statusHandler (svc : MailChimpService) (store : SessionStore)
    (req : GatedReq) : GatedResult ConnectionStatus :=
  let sessionId := getSessionId req.headerSessionId req.generated
  match svc.getUserSession store sessionId with
  | none => ⟨200, ⟨true, none, some ⟨false, none, none⟩⟩, store⟩
  | some session =>
    ⟨200,
     ⟨true, none,
      some ⟨true, some session.metadata.accountname,
        some session.metadata.login.email⟩⟩, store⟩

/-- GET /api/mailchimp/lists from src/routes/mailchimp.ts: 401 without a
session; otherwise fetch the lists with the stored token and datacenter
and project each entry to id, name and member count; a thrown service
error is surfaced as a 500 with its message. -/
def listsHandler (svc : MailChimpService) (u : Upstream)
    (store : SessionStore) (req : GatedReq) : GatedResult ListsResponse :=
  let sessionId := getSessionId req.headerSessionId req.generated
  match svc.getUserSession store sessionId with
  | none => ⟨401, ⟨false, some "Not connected to MailChimp", none⟩, store⟩
  | some session =>
    match svc.getLists u session.accessToken session.metadata.dc with
    | .error msg => ⟨500, ⟨false, some msg, none⟩, store⟩
    | .ok listsResponse =>
      ⟨200,
       ⟨true, none,
        some ⟨listsResponse.lists.map
          (fun l => ⟨l.id, l.name, ⟨l.stats.member_count⟩⟩)⟩⟩, store⟩

/-- Request body and runtime inputs of POST /api/mailchimp/campaign/send;
the five draft fields are optional strings since the JSON body may omit
them. -/
structure CampaignSendReq where
  listId : Option String
  subject : Option String
  content : Option String
  fromName : Option String
  replyTo : Option String
  headerSessionId : Option String
  generated : String
deriving DecidableEq, Repr

/-- One outbound provider call of the campaign flow, with its arguments.
The deleteCampaign constructor exists so that the absence of any rollback
call is expressible; the code never issues it. -/
inductive UpstreamCall where
  | create (accessToken : String) (dc : String) (listId : String)
      (subject : String) (fromName : String) (replyTo : String) : UpstreamCall
  | content (accessToken : String) (dc : String) (campaignId : String)
      (html : String) : UpstreamCall
  | send (accessToken : String) (dc : String) (campaignId : String) :
      UpstreamCall
  | deleteCampaign (accessToken : String) (dc : String)
      (campaignId : String) : UpstreamCall
deriving DecidableEq, Repr

/-- Result of POST /api/mailchimp/campaign/send: status, body, the ordered
trace of outbound provider calls the handler issued, and the store. -/
structure CampaignSendResult where
  status : Nat
  body : ApiResponse CampaignResponse
  calls : List UpstreamCall
  store : SessionStore

/-- POST /api/mailchimp/campaign/send from src/routes/mailchimp.ts:
validate the five draft fields before anything else (400, no outbound
call), then require a session (401, no outbound call), then run
createCampaign, setCampaignContent, sendCampaign strictly in order,
stopping at the first failure, which the catch block surfaces as a 500
with the thrown message; no rollback call of any kind is ever issued. -/
def campaignSendHandler (svc : MailChimpService) (u : Upstream)
    (store : SessionStore) (req : CampaignSendReq) : CampaignSendResult :=
  if falsy req.listId || falsy req.subject || falsy req.content ||
      falsy req.fromName || falsy req.replyTo then
    ⟨400,
     ⟨false,
      some "Missing required fields: listId, subject, content, fromName, replyTo",
      none⟩, [], store⟩
  else
    let sessionId := getSessionId req.headerSessionId req.generated
    match svc.getUserSession store sessionId with
    | none => ⟨401, ⟨false, some "Not connected to MailChimp", none⟩, [], store⟩
    | some session =>
      let listId := req.listId.getD ""
      let subject := req.subject.getD ""
      let htmlContent := req.content.getD ""
      let fromName := req.fromName.getD ""
      let replyTo := req.replyTo.getD ""
      let createCall := UpstreamCall.create session.accessToken
        session.metadata.dc listId subject fromName replyTo
      match svc.createCampaign u session.accessToken session.metadata.dc
          listId subject fromName replyTo with
      | .error msg => ⟨500, ⟨false, some msg, none⟩, [createCall], store⟩
      | .ok campaign =>
        let contentCall := UpstreamCall.content session.accessToken
          session.metadata.dc campaign.id htmlContent
        match svc.setCampaignContent u session.accessToken
            session.metadata.dc campaign.id htmlContent with
        | .error msg =>
          ⟨500, ⟨false, some msg, none⟩, [createCall, contentCall], store⟩
        | .ok _ =>
          let sendCall := UpstreamCall.send session.accessToken
            session.metadata.dc campaign.id
          match svc.sendCampaign u session.accessToken session.metadata.dc
              campaign.id with
          | .error msg =>
            ⟨500, ⟨false, some msg, none⟩,
             [createCall, contentCall, sendCall], store⟩
          | .ok _ =>
            ⟨200,
             ⟨true, none,
              some ⟨campaign.id, "sent", "Campaign sent successfully"⟩⟩,
             [createCall, contentCall, sendCall], store⟩

/-- POST /api/mailchimp/disconnect from src/routes/mailchimp.ts: remove
the session unconditionally and always report success. -/
def disconnectHandler (svc : MailChimpService) (store : SessionStore)
    (req : GatedReq) : GatedResult MessageData :=
  let sessionId := getSessionId req.headerSessionId req.generated
  let newStore := svc.removeUserSession store sessionId
  ⟨200, ⟨true, none, some ⟨"Successfully disconnected from MailChimp"⟩⟩,
   newStore⟩

/-- Body of the 404 fallback handler in src/index.ts. -/
def notFoundResponse : ApiResponse Unit :=
  ⟨false, some "Endpoint not found", none⟩

/-- Body of the error-handling middleware in src/index.ts. -/
def errorMiddlewareResponse : ApiResponse Unit :=
  ⟨false, some "Internal server error", none⟩

/-- Minimal JSON value type, used to state the response-envelope property
over bodies that are not ApiResponse values. -/
inductive Json where
  | null : Json
  | bool (b : Bool) : Json
  | num (n : Int) : Json
  | str (s : String) : Json
  | arr (elems : List Json) : Json
  | obj (fields : List (String × Json)) : Json

/-- First field of a JSON object with the given key. -/
def Json.lookup : List (String × Json) → String → Option Json
  | [], _ => none
  | (k, v) :: rest, key => if k == key then some v else Json.lookup rest key

/-- Whether a JSON value is exactly null. -/
def Json.isNull : Json → Bool
  | .null => true
  | _ => false

/-- The response-envelope invariant of the spec, on a raw JSON body: an
object with a boolean success field; when success is true, a data field is
present and no message field; when success is false, a string message field
is present and data is null. -/
def isEnvelope (j : Json) : Bool :=
  match j with
  | .obj fields =>
    match Json.lookup fields "success" with
    | some (.bool true) =>
      (Json.lookup fields "data").isSome &&
        (Json.lookup fields "message").isNone
    | some (.bool false) =>
      (match Json.lookup fields "message" with
       | some (.str _) => true
       | _ => false) &&
        (match Json.lookup fields "data" with
         | some d => d.isNull
         | none => false)
    | _ => false
  | _ => false

/-- GET / from src/index.ts (health check): the literal JSON body it sends,
parameterised by the port interpolated into the documentation URL. -/
def healthHandler (port : String) : Json :=
  .obj
    [("message", .str "MailChimp Backend API is running!"),
     ("version", .str "1.0.0"),
     ("documentation",
      .str ("http://localhost:" ++ port ++ "/api-docs")),
     ("endpoints",
      .arr
        [.str "GET /oauth-verify/mailchimp (OAuth callback)",
         .str "GET /api/mailchimp/connect",
         .str "POST /api/mailchimp/oauth/token",
         .str "GET /api/mailchimp/status",
         .str "GET /api/mailchimp/lists",
         .str "POST /api/mailchimp/campaign/send",
         .str "POST /api/mailchimp/disconnect"])]

/-- Rendering of an ApiResponse body into raw JSON, given a rendering of
the data payload: success responses carry no message key, failure
responses carry data null, exactly as every res.json call in the router
writes them. -/
def ApiResponse.toJson {α : Type} (render : α → Json) (r : ApiResponse α) :
    Json :=
  .obj
    ((if r.success then [] else
      [("message", Json.str (r.message.getD ""))]) ++
     [("success", Json.bool r.success),
      ("data", (r.data.map render).getD Json.null)])

/-- Fixture: a sample metadata record (the end-to-end scenario of the
spec). -/
def mdAcme : MailChimpMetadata :=
  ⟨"us1", "owner", "Acme", 7,
   ⟨"a@acme.com", "lid7", "acme-login", "a@acme.com"⟩,
   "https://us1.api.mailchimp.com"⟩

/-- Fixture: a sample token response. -/
def tokSample : MailChimpTokenResponse :=
  ⟨"tok_1", "bearer", none, none, none⟩

/-- Fixture: a sample campaign created upstream. -/
def campaignSample : MailChimpCampaignApiResponse :=
  ⟨"campaign_123456", "save", "regular", "2024-01-01T00:00:00Z",
   ⟨"Hello", "Campaign - Hello", "Acme", "reply@acme.com"⟩⟩

/-- Fixture: a sample lists payload. -/
def listsSample : MailChimpListsApiResponse :=
  ⟨[⟨"1a2b3c4d5e", "Newsletter Subscribers", ⟨1250⟩⟩], 1⟩

/-- Fixture: an upstream oracle on which every provider call succeeds. -/
def upstreamOk : Upstream :=
  ⟨fun _ _ => .ok tokSample,
   fun _ => .ok mdAcme,
   fun _ _ => .ok listsSample,
   fun _ _ _ _ _ _ => .ok campaignSample,
   fun _ _ _ _ => .ok (),
   fun _ _ _ => .ok ()⟩

/-- Fixture: token exchange fails with provider body A. -/
def upstreamExchangeFailA : Upstream :=
  ⟨fun _ _ => .error ⟨"invalid_grant: code expired"⟩,
   fun _ => .ok mdAcme,
   fun _ _ => .ok listsSample,
   fun _ _ _ _ _ _ => .ok campaignSample,
   fun _ _ _ _ => .ok (),
   fun _ _ _ => .ok ()⟩

/-- Fixture: token exchange fails with a different provider body B. -/
def upstreamExchangeFailB : Upstream :=
  ⟨fun _ _ => .error ⟨"temporarily_unavailable"⟩,
   fun _ => .ok mdAcme,
   fun _ _ => .ok listsSample,
   fun _ _ _ _ _ _ => .ok campaignSample,
   fun _ _ _ _ => .ok (),
   fun _ _ _ => .ok ()⟩

/-- Fixture: metadata fetch fails after a successful token exchange. -/
def upstreamMetadataFail : Upstream :=
  ⟨fun _ _ => .ok tokSample,
   fun _ => .error ⟨"401 unauthorized"⟩,
   fun _ _ => .ok listsSample,
   fun _ _ _ _ _ _ => .ok campaignSample,
   fun _ _ _ _ => .ok (),
   fun _ _ _ => .ok ()⟩

/-- Fixture: setCampaignContent fails after a successful createCampaign. -/
def upstreamContentFail : Upstream :=
  ⟨fun _ _ => .ok tokSample,
   fun _ => .ok mdAcme,
   fun _ _ => .ok listsSample,
   fun _ _ _ _ _ _ => .ok campaignSample,
   fun _ _ _ _ => .error ⟨"422 content rejected"⟩,
   fun _ _ _ => .ok ()⟩

/-- Fixture: lists fetch fails with provider body A. -/
def upstreamListsFailA : Upstream :=
  ⟨fun _ _ => .ok tokSample,
   fun _ => .ok mdAcme,
   fun _ _ => .error ⟨"429 too many requests"⟩,
   fun _ _ _ _ _ _ => .ok campaignSample,
   fun _ _ _ _ => .ok (),
   fun _ _ _ => .ok ()⟩

/-- Fixture: lists fetch fails with a different provider body B. -/
def upstreamListsFailB : Upstream :=
  ⟨fun _ _ => .ok tokSample,
   fun _ => .ok mdAcme,
   fun _ _ => .error ⟨"503 service unavailable"⟩,
   fun _ _ _ _ _ _ => .ok campaignSample,
   fun _ _ _ _ => .ok (),
   fun _ _ _ => .ok ()⟩

/-- Fixture: the service instance constructed at the top of src/index.ts
(default environment). -/
def svcA : MailChimpService := MailChimpService.make ⟨none, none, none⟩

/-- Fixture: the service instance constructed at the top of
src/routes/mailchimp.ts; a distinct instance (here given a distinct
environment to keep the two instances observably different). -/
def svcB : MailChimpService :=
  MailChimpService.make ⟨some "other-client", some "other-secret", none⟩

/-- Fixture: a session record as the handlers store it. -/
def sessionAcme : UserSession := ⟨"tok_1", mdAcme, 5⟩

/-- Fixture: a store holding exactly the Acme session under key sid-1. -/
def storeWithAcme : SessionStore :=
  MailChimpService.storeUserSession svcA emptyStore "sid-1" "tok_1" mdAcme 5

/-- Fixture: a fully non-empty campaign draft request carrying the session
header sid-1. -/
def draftReq : CampaignSendReq :=
  ⟨some "1a2b3c4d5e", some "Hello", some "<h1>Hi</h1>", some "Acme",
   some "reply@acme.com", some "sid-1", "gen-0"⟩

/-- The response-envelope invariant on a typed ApiResponse: data present
and message absent on success; message present and data null on failure. -/
def envelopeOk {α : Type} (r : ApiResponse α) : Bool :=
  if r.success then r.data.isSome && r.message.isNone
  else r.message.isSome && r.data.isNone

/-- Fixture: the Acme store after a disconnect of sid-1 issued through the
second service instance. -/
def storeAfterDisconnect : SessionStore :=
  MailChimpService.removeUserSession svcB storeWithAcme "sid-1"

/-- Fixture: a token-endpoint request with no session header. -/
def reqTokSample : OAuthTokenReq :=
  ⟨some "abc123", some "state-1", none, "1.2.3.4", 5, "r0"⟩

/-- Fixture: a gated request carrying the session header sid-1. -/
def gatedSid1 : GatedReq := ⟨some "sid-1", "gen-1"⟩

/-- Fixture: a callback request carrying a valid code. -/
def callbackReqSample : CallbackReq :=
  ⟨some "abc123", some "state-1", none, none, "1.2.3.4", 5, "r0"⟩

/-- C7: Session Store removal is idempotent: for every session identifier,
calling remove twice, or calling it on an identifier not present in the
store, never errors and leaves the store in the same observable state as
calling it once (or as the original state when the identifier was
absent).  Observable state is the result of get at every key. -/
theorem C7_theorem (svc : MailChimpService) (store : SessionStore)
    (sid : String) :
    (∀ k, svc.removeUserSession (svc.removeUserSession store sid) sid k =
      svc.removeUserSession store sid k) ∧
    (store sid = none →
      ∀ k, svc.removeUserSession store sid k = store k) := by
  constructor
  · intro k
    unfold MailChimpService.removeUserSession
    by_cases h : k = sid <;> simp [h]
  · intro h k
    unfold MailChimpService.removeUserSession
    by_cases hk : k = sid
    · subst hk
      simp [h]
    · simp [hk]

/-- Witness for C7 at a concrete store and identifier. -/
theorem C7_witness :
    (svcA.removeUserSession (svcA.removeUserSession emptyStore "sid-1")
        "sid-1" "sid-1" =
      svcA.removeUserSession emptyStore "sid-1" "sid-1") ∧
    (emptyStore "sid-1" = none ∧
      svcA.removeUserSession emptyStore "sid-1" "sid-1" =
        emptyStore "sid-1") :=
  ⟨(C7_theorem svcA emptyStore "sid-1").1 "sid-1", rfl,
   (C7_theorem svcA emptyStore "sid-1").2 rfl "sid-1"⟩

/-- C5: for every campaign-send request in which any of the five draft
fields (listId, subject, content, fromName, replyTo) is empty or missing,
the endpoint returns the 400 validation error and issues no outbound
provider call. -/
theorem C5_theorem (svc : MailChimpService) (u : Upstream)
    (store : SessionStore) (req : CampaignSendReq)
    (hf : (falsy req.listId || falsy req.subject || falsy req.content ||
      falsy req.fromName || falsy req.replyTo) = true) :
    campaignSendHandler svc u store req =
      ⟨400,
       ⟨false,
        some "Missing required fields: listId, subject, content, fromName, replyTo",
        none⟩, [], store⟩ := by
  unfold campaignSendHandler
  simp [hf]

/-- Witness for C5: the empty listId draft of the spec scenario makes no
outbound call. -/
theorem C5_witness :
    campaignSendHandler svcA upstreamOk storeWithAcme
      ⟨some "", some "x", some "x", some "x", some "x", some "sid-1", "g"⟩ =
      ⟨400,
       ⟨false,
        some "Missing required fields: listId, subject, content, fromName, replyTo",
        none⟩, [], storeWithAcme⟩ :=
  C5_theorem svcA upstreamOk storeWithAcme
    ⟨some "", some "x", some "x", some "x", some "x", some "sid-1", "g"⟩
    (by decide)

/-- C3: for every campaign send against an established session with a
fully non-empty draft, when all three upstream steps succeed the endpoint
makes exactly the three upstream calls createCampaign, setCampaignContent,
sendCampaign in that order, and returns a success result whose campaignId
is the id yielded by createCampaign, whose status is sent, and whose
message is Campaign sent successfully. -/
theorem C3_theorem (svc : MailChimpService) (u : Upstream)
    (store : SessionStore) (req : CampaignSendReq) (session : UserSession)
    (campaign : MailChimpCampaignApiResponse)
    (hf : (falsy req.listId || falsy req.subject || falsy req.content ||
      falsy req.fromName || falsy req.replyTo) = false)
    (hs : store (getSessionId req.headerSessionId req.generated) =
      some session)
    (hc : u.create session.accessToken session.metadata.dc
      (req.listId.getD "") (req.subject.getD "") (req.fromName.getD "")
      (req.replyTo.getD "") = .ok campaign)
    (hct : u.content session.accessToken session.metadata.dc campaign.id
      (req.content.getD "") = .ok ())
    (hsd : u.send session.accessToken session.metadata.dc campaign.id =
      .ok ()) :
    campaignSendHandler svc u store req =
      ⟨200,
       ⟨true, none,
        some ⟨campaign.id, "sent", "Campaign sent successfully"⟩⟩,
       [.create session.accessToken session.metadata.dc (req.listId.getD "")
          (req.subject.getD "") (req.fromName.getD "") (req.replyTo.getD ""),
        .content session.accessToken session.metadata.dc campaign.id
          (req.content.getD ""),
        .send session.accessToken session.metadata.dc campaign.id],
       store⟩ := by
  unfold campaignSendHandler MailChimpService.getUserSession
    MailChimpService.createCampaign MailChimpService.setCampaignContent
    MailChimpService.sendCampaign
  simp [hf, hs, hc, hct, hsd]

/-- Witness for C3: the end-to-end scenario draft against the connected
Acme session, all provider calls succeeding. -/
theorem C3_witness :
    (campaignSendHandler svcA upstreamOk storeWithAcme draftReq).body =
      ⟨true, none,
       some ⟨"campaign_123456", "sent", "Campaign sent successfully"⟩⟩ ∧
    (campaignSendHandler svcA upstreamOk storeWithAcme draftReq).calls =
      [.create "tok_1" "us1" "1a2b3c4d5e" "Hello" "Acme" "reply@acme.com",
       .content "tok_1" "us1" "campaign_123456" "<h1>Hi</h1>",
       .send "tok_1" "us1" "campaign_123456"] := by
  have h := C3_theorem svcA upstreamOk storeWithAcme draftReq sessionAcme
    campaignSample (by decide) (by decide) rfl rfl rfl
  rw [h]
  exact ⟨rfl, rfl⟩

/-- C4: for every campaign send in which createCampaign succeeds but
setCampaignContent fails, the handler surfaces the upstream error as a
500, never invokes sendCampaign, and issues no rollback or deletion call:
the outbound trace is exactly one create call followed by one content
call. -/
theorem C4_theorem (svc : MailChimpService) (u : Upstream)
    (store : SessionStore) (req : CampaignSendReq) (session : UserSession)
    (campaign : MailChimpCampaignApiResponse) (e : AxiosError)
    (hf : (falsy req.listId || falsy req.subject || falsy req.content ||
      falsy req.fromName || falsy req.replyTo) = false)
    (hs : store (getSessionId req.headerSessionId req.generated) =
      some session)
    (hc : u.create session.accessToken session.metadata.dc
      (req.listId.getD "") (req.subject.getD "") (req.fromName.getD "")
      (req.replyTo.getD "") = .ok campaign)
    (hct : u.content session.accessToken session.metadata.dc campaign.id
      (req.content.getD "") = .error e) :
    campaignSendHandler svc u store req =
      ⟨500, ⟨false, some "Failed to set campaign content", none⟩,
       [.create session.accessToken session.metadata.dc (req.listId.getD "")
          (req.subject.getD "") (req.fromName.getD "") (req.replyTo.getD ""),
        .content session.accessToken session.metadata.dc campaign.id
          (req.content.getD "")],
       store⟩ := by
  unfold campaignSendHandler MailChimpService.getUserSession
    MailChimpService.createCampaign MailChimpService.setCampaignContent
  simp [hf, hs, hc, hct]

/-- Witness for C4: the content step rejects the draft after a successful
create; one create call, one content call, zero send calls. -/
theorem C4_witness :
    (campaignSendHandler svcA upstreamContentFail storeWithAcme
        draftReq).body =
      ⟨false, some "Failed to set campaign content", none⟩ ∧
    (campaignSendHandler svcA upstreamContentFail storeWithAcme
        draftReq).calls =
      [.create "tok_1" "us1" "1a2b3c4d5e" "Hello" "Acme" "reply@acme.com",
       .content "tok_1" "us1" "campaign_123456" "<h1>Hi</h1>"] := by
  have h := C4_theorem svcA upstreamContentFail storeWithAcme draftReq
    sessionAcme campaignSample ⟨"422 content rejected"⟩ (by decide)
    (by decide) rfl rfl
  rw [h]
  exact ⟨rfl, rfl⟩

/-- C6: for every session identifier absent from the Session Store, the
client-visible response of each gated operation is a fixed constant
independent of how the identifier came to be absent: /status returns the
success response with isConnected false (never an error), and /lists
returns the unauthorized error. -/
theorem C6_theorem (svc : MailChimpService) (u : Upstream)
    (store : SessionStore) (req : GatedReq)
    (h : store (getSessionId req.headerSessionId req.generated) = none) :
    statusHandler svc store req =
      ⟨200, ⟨true, none, some ⟨false, none, none⟩⟩, store⟩ ∧
    listsHandler svc u store req =
      ⟨401, ⟨false, some "Not connected to MailChimp", none⟩, store⟩ := by
  unfold statusHandler listsHandler MailChimpService.getUserSession
  simp [h]

/-- Witness for C6: the same responses whether the identifier was never
created (empty store) or already removed by disconnect. -/
theorem C6_witness :
    (statusHandler svcA emptyStore ⟨some "sid-9", "gen-9"⟩ =
       ⟨200, ⟨true, none, some ⟨false, none, none⟩⟩, emptyStore⟩ ∧
     listsHandler svcA upstreamOk emptyStore ⟨some "sid-9", "gen-9"⟩ =
       ⟨401, ⟨false, some "Not connected to MailChimp", none⟩,
        emptyStore⟩) ∧
    (statusHandler svcA storeAfterDisconnect gatedSid1 =
       ⟨200, ⟨true, none, some ⟨false, none, none⟩⟩,
        storeAfterDisconnect⟩ ∧
     listsHandler svcA upstreamOk storeAfterDisconnect gatedSid1 =
       ⟨401, ⟨false, some "Not connected to MailChimp", none⟩,
        storeAfterDisconnect⟩) :=
  ⟨C6_theorem svcA upstreamOk emptyStore ⟨some "sid-9", "gen-9"⟩ (by decide),
   C6_theorem svcA upstreamOk storeAfterDisconnect gatedSid1 (by decide)⟩

/-- C1 counterexample: the claim that no client-supplied string is ever
the identifier of a newly created session record is false.  A concrete
POST /oauth/token run carrying the x-session-id header attacker-session
over the empty store creates its session record under exactly that
client-supplied key (which differs from the broker-generated fallback),
and echoes it in the X-Session-Id response header. -/
theorem C1_counterexample :
    (⟨some "abc123", some "state-1", some "attacker-session", "9.9.9.9", 5,
        "zzz"⟩ : OAuthTokenReq).headerSessionId = some "attacker-session" ∧
    emptyStore "attacker-session" = none ∧
    (oauthTokenHandler svcA upstreamOk emptyStore
        ⟨some "abc123", some "state-1", some "attacker-session", "9.9.9.9",
         5, "zzz"⟩).sessionHeader = some "attacker-session" ∧
    (oauthTokenHandler svcA upstreamOk emptyStore
        ⟨some "abc123", some "state-1", some "attacker-session", "9.9.9.9",
         5, "zzz"⟩).store "attacker-session" =
      some ⟨"tok_1", mdAcme, 5⟩ ∧
    "attacker-session" ≠ generateSessionId "9.9.9.9" 5 "zzz" := by
  refine ⟨rfl, rfl, ?_, ?_, by decide⟩ <;> decide

/-- C1 amended: session records created by the redirect callback always
use a broker-generated identifier, but the POST /oauth/token entry point
uses the client-supplied x-session-id header as the identifier of the new
session record whenever that header is present and non-empty; only when
it is absent or empty does it fall back to a broker-generated one. -/
theorem C1_theorem (svc : MailChimpService) (u : Upstream)
    (store : SessionStore) :
    (∀ (req : CallbackReq) (tok : MailChimpTokenResponse)
        (md : MailChimpMetadata),
      truthy req.error = false → falsy req.code = false →
      u.exchange svc.config (req.code.getD "") = .ok tok →
      u.metadata tok.access_token = .ok md →
      (callbackHandler svc u store req).store =
        svc.storeUserSession store
          (generateSessionId req.ip req.now req.rand) tok.access_token md
          req.now ∧
      (callbackHandler svc u store req).redirect =
        .successRedirect (generateSessionId req.ip req.now req.rand)
          md.accountname md.login.email) ∧
    (∀ (req : OAuthTokenReq) (h : String) (tok : MailChimpTokenResponse)
        (md : MailChimpMetadata),
      req.headerSessionId = some h → h ≠ "" →
      falsy req.code = false →
      u.exchange svc.config (req.code.getD "") = .ok tok →
      u.metadata tok.access_token = .ok md →
      (oauthTokenHandler svc u store req).sessionHeader = some h ∧
      (oauthTokenHandler svc u store req).store =
        svc.storeUserSession store h tok.access_token md req.now) ∧
    (∀ (req : OAuthTokenReq) (tok : MailChimpTokenResponse)
        (md : MailChimpMetadata),
      (req.headerSessionId = none ∨ req.headerSessionId = some "") →
      falsy req.code = false →
      u.exchange svc.config (req.code.getD "") = .ok tok →
      u.metadata tok.access_token = .ok md →
      (oauthTokenHandler svc u store req).sessionHeader =
        some (generateSessionId req.ip req.now req.rand) ∧
      (oauthTokenHandler svc u store req).store =
        svc.storeUserSession store
          (generateSessionId req.ip req.now req.rand) tok.access_token md
          req.now) := by
  refine ⟨?_, ?_, ?_⟩
  · intro req tok md he hc hex hmd
    unfold callbackHandler MailChimpService.exchangeCodeForToken
      MailChimpService.getUserMetadata
    simp [he, hc, hex, hmd]
  · intro req h tok md hh hne hc hex hmd
    unfold oauthTokenHandler MailChimpService.exchangeCodeForToken
      MailChimpService.getUserMetadata getSessionId jsOr
    simp [hh, hne, hc, hex, hmd]
  · intro req tok md hh hc hex hmd
    unfold oauthTokenHandler MailChimpService.exchangeCodeForToken
      MailChimpService.getUserMetadata getSessionId jsOr
    rcases hh with hh | hh <;> simp [hh, hc, hex, hmd]

/-- Witness for C1 amended: a callback run stores under the generated
identifier; a token run with the header sid-77 stores under sid-77; a
token run without the header stores under the generated identifier. -/
theorem C1_witness :
    ((callbackHandler svcA upstreamOk emptyStore callbackReqSample).store =
       MailChimpService.storeUserSession svcA emptyStore "1.2.3.4-5-r0"
         "tok_1" mdAcme 5 ∧
     (callbackHandler svcA upstreamOk emptyStore
         callbackReqSample).redirect =
       .successRedirect "1.2.3.4-5-r0" "Acme" "a@acme.com") ∧
    ((oauthTokenHandler svcA upstreamOk emptyStore
        ⟨some "abc123", some "state-1", some "sid-77", "1.2.3.4", 5,
         "r0"⟩).sessionHeader = some "sid-77" ∧
     (oauthTokenHandler svcA upstreamOk emptyStore
        ⟨some "abc123", some "state-1", some "sid-77", "1.2.3.4", 5,
         "r0"⟩).store =
       MailChimpService.storeUserSession svcA emptyStore "sid-77" "tok_1"
         mdAcme 5) ∧
    ((oauthTokenHandler svcA upstreamOk emptyStore reqTokSample).sessionHeader
        = some "1.2.3.4-5-r0" ∧
     (oauthTokenHandler svcA upstreamOk emptyStore reqTokSample).store =
       MailChimpService.storeUserSession svcA emptyStore "1.2.3.4-5-r0"
         "tok_1" mdAcme 5) := by
  have h1 := (C1_theorem svcA upstreamOk emptyStore).1 callbackReqSample
    tokSample mdAcme (by decide) (by decide) rfl rfl
  have h2 := (C1_theorem svcA upstreamOk emptyStore).2.1
    ⟨some "abc123", some "state-1", some "sid-77", "1.2.3.4", 5, "r0"⟩
    "sid-77" tokSample mdAcme rfl (by decide) (by decide) rfl rfl
  have h3 := (C1_theorem svcA upstreamOk emptyStore).2.2 reqTokSample
    tokSample mdAcme (Or.inl rfl) (by decide) rfl rfl
  exact ⟨h1, h2, h3⟩

/-- C2: for every run of either OAuth entry point, a session record is
written if and only if both the token exchange and the metadata fetch
succeed; every failing branch (provider error parameter, missing code,
failed exchange, failed metadata fetch) leaves the store unchanged, so in
particular a token obtained by a successful exchange is discarded when the
metadata fetch fails and never persisted without metadata. -/
theorem C2_theorem (svc : MailChimpService) (u : Upstream)
    (store : SessionStore) :
    (∀ (req : CallbackReq) (tok : MailChimpTokenResponse)
        (md : MailChimpMetadata),
      truthy req.error = false → falsy req.code = false →
      u.exchange svc.config (req.code.getD "") = .ok tok →
      u.metadata tok.access_token = .ok md →
      (callbackHandler svc u store req).store =
        svc.storeUserSession store
          (generateSessionId req.ip req.now req.rand) tok.access_token md
          req.now) ∧
    (∀ (req : CallbackReq), truthy req.error = true →
      (callbackHandler svc u store req).store = store) ∧
    (∀ (req : CallbackReq), falsy req.code = true →
      (callbackHandler svc u store req).store = store) ∧
    (∀ (req : CallbackReq) (e : AxiosError),
      u.exchange svc.config (req.code.getD "") = .error e →
      (callbackHandler svc u store req).store = store) ∧
    (∀ (req : CallbackReq) (tok : MailChimpTokenResponse) (e : AxiosError),
      u.exchange svc.config (req.code.getD "") = .ok tok →
      u.metadata tok.access_token = .error e →
      (callbackHandler svc u store req).store = store ∧
      (truthy req.error = false → falsy req.code = false →
        (callbackHandler svc u store req).redirect =
          .errorRedirect "processing_failed"
            "Failed to fetch user metadata")) ∧
    (∀ (req : OAuthTokenReq) (tok : MailChimpTokenResponse)
        (md : MailChimpMetadata),
      falsy req.code = false →
      u.exchange svc.config (req.code.getD "") = .ok tok →
      u.metadata tok.access_token = .ok md →
      (oauthTokenHandler svc u store req).store =
        svc.storeUserSession store
          (getSessionId req.headerSessionId
            (generateSessionId req.ip req.now req.rand))
          tok.access_token md req.now) ∧
    (∀ (req : OAuthTokenReq), falsy req.code = true →
      (oauthTokenHandler svc u store req).store = store) ∧
    (∀ (req : OAuthTokenReq) (e : AxiosError),
      u.exchange svc.config (req.code.getD "") = .error e →
      (oauthTokenHandler svc u store req).store = store) ∧
    (∀ (req : OAuthTokenReq) (tok : MailChimpTokenResponse)
        (e : AxiosError),
      u.exchange svc.config (req.code.getD "") = .ok tok →
      u.metadata tok.access_token = .error e →
      (oauthTokenHandler svc u store req).store = store ∧
      (falsy req.code = false →
        (oauthTokenHandler svc u store req).body =
          ⟨false, some "Failed to fetch user metadata", none⟩)) := by
  refine ⟨?_, ?_, ?_, ?_, ?_, ?_, ?_, ?_, ?_⟩
  · intro req tok md he hc hex hmd
    unfold callbackHandler MailChimpService.exchangeCodeForToken
      MailChimpService.getUserMetadata
    simp [he, hc, hex, hmd]
  · intro req he
    unfold callbackHandler
    simp [he]
  · intro req hc
    unfold callbackHandler
    by_cases he : truthy req.error <;> simp [he, hc]
  · intro req e hex
    unfold callbackHandler MailChimpService.exchangeCodeForToken
    by_cases he : truthy req.error
    · simp [he]
    · by_cases hc : falsy req.code <;> simp [he, hc, hex]
  · intro req tok e hex hmd
    unfold callbackHandler MailChimpService.exchangeCodeForToken
      MailChimpService.getUserMetadata
    by_cases he : truthy req.error
    · simp [he]
    · by_cases hc : falsy req.code <;> simp [he, hc, hex, hmd]
  · intro req tok md hc hex hmd
    unfold oauthTokenHandler MailChimpService.exchangeCodeForToken
      MailChimpService.getUserMetadata
    simp [hc, hex, hmd]
  · intro req hc
    unfold oauthTokenHandler
    simp [hc]
  · intro req e hex
    unfold oauthTokenHandler MailChimpService.exchangeCodeForToken
    by_cases hc : falsy req.code <;> simp [hc, hex]
  · intro req tok e hex hmd
    unfold oauthTokenHandler MailChimpService.exchangeCodeForToken
      MailChimpService.getUserMetadata
    by_cases hc : falsy req.code <;> simp [hc, hex, hmd]

/-- Witness for C2: a successful run writes the record; a run whose
metadata fetch fails leaves the empty store empty and surfaces the
metadata error. -/
theorem C2_witness :
    ((callbackHandler svcA upstreamOk emptyStore callbackReqSample).store =
       MailChimpService.storeUserSession svcA emptyStore "1.2.3.4-5-r0"
         "tok_1" mdAcme 5) ∧
    ((callbackHandler svcA upstreamMetadataFail emptyStore
        callbackReqSample).store = emptyStore) ∧
    ((oauthTokenHandler svcA upstreamMetadataFail emptyStore
        reqTokSample).store = emptyStore ∧
     (oauthTokenHandler svcA upstreamMetadataFail emptyStore
        reqTokSample).body =
       ⟨false, some "Failed to fetch user metadata", none⟩) := by
  have h1 := (C2_theorem svcA upstreamOk emptyStore).1 callbackReqSample
    tokSample mdAcme (by decide) (by decide) rfl rfl
  have h2 := ((C2_theorem svcA upstreamMetadataFail emptyStore).2.2.2.2.1
    callbackReqSample tokSample ⟨"401 unauthorized"⟩ rfl rfl).1
  have h3 := (C2_theorem svcA upstreamMetadataFail
    emptyStore).2.2.2.2.2.2.2.2 reqTokSample tokSample
    ⟨"401 unauthorized"⟩ rfl rfl
  exact ⟨h1, h2, h3.1, h3.2 (by decide)⟩

/-- An ApiResponse satisfying the typed envelope invariant renders to a
raw JSON body satisfying the raw envelope invariant. -/
theorem envelopeOk_toJson {α : Type} (render : α → Json)
    (r : ApiResponse α) (h : envelopeOk r = true) :
    isEnvelope (ApiResponse.toJson render r) = true := by
  rcases r with ⟨s, m, d⟩
  cases s
  · simp [envelopeOk] at h
    rcases m with _ | msg
    · simp at h
    · rcases h with ⟨-, hd⟩
      subst hd
      rfl
  · simp [envelopeOk] at h
    rcases d with _ | v
    · simp at h
    · rcases h with ⟨-, hm⟩
      subst hm
      rfl

/-- Every branch of POST /oauth/token emits a body obeying the typed
envelope. -/
theorem envelopeOk_oauthToken (svc : MailChimpService) (u : Upstream)
    (store : SessionStore) (req : OAuthTokenReq) :
    envelopeOk (oauthTokenHandler svc u store req).body = true := by
  unfold oauthTokenHandler
  split
  · rfl
  · split
    · rfl
    · split <;> rfl

/-- Every branch of GET /status emits a body obeying the typed envelope. -/
theorem envelopeOk_status (svc : MailChimpService) (store : SessionStore)
    (req : GatedReq) :
    envelopeOk (statusHandler svc store req).body = true := by
  unfold statusHandler
  dsimp only
  split <;> rfl

/-- Every branch of GET /lists emits a body obeying the typed envelope. -/
theorem envelopeOk_lists (svc : MailChimpService) (u : Upstream)
    (store : SessionStore) (req : GatedReq) :
    envelopeOk (listsHandler svc u store req).body = true := by
  unfold listsHandler
  dsimp only
  split
  · rfl
  · split <;> rfl

/-- Every branch of POST /campaign/send emits a body obeying the typed
envelope. -/
theorem envelopeOk_campaignSend (svc : MailChimpService) (u : Upstream)
    (store : SessionStore) (req : CampaignSendReq) :
    envelopeOk (campaignSendHandler svc u store req).body = true := by
  unfold campaignSendHandler
  split
  · rfl
  · dsimp only
    split
    · rfl
    · split
      · rfl
      · split
        · rfl
        · split <;> rfl

/-- C8 counterexample: the health endpoint GET / is an endpoint whose JSON
response does not conform to the uniform envelope: its body has no
success field at all (and hence neither the success nor the failure shape
of the envelope). -/
theorem C8_counterexample :
    isEnvelope (healthHandler "3001") = false ∧
    Json.lookup
      (match healthHandler "3001" with
       | .obj fields => fields
       | _ => []) "success" = none := by
  exact ⟨rfl, rfl⟩

/-- C8 amended: every endpoint of the API router (connect, oauth/token,
status, lists, campaign/send, disconnect) as well as the 404 fallback and
the error middleware emits a JSON response conforming to the uniform
envelope, with data present and message absent on success and message
present and data null on failure; the health endpoint GET / is the one
endpoint that does not follow the envelope. -/
theorem C8_theorem :
    (∀ render : MessageData → Json,
      isEnvelope (ApiResponse.toJson render connectHandler) = true) ∧
    (∀ (svc : MailChimpService) (u : Upstream) (store : SessionStore)
        (req : OAuthTokenReq) (render : ConnectionStatus → Json),
      isEnvelope
        (ApiResponse.toJson render (oauthTokenHandler svc u store req).body)
        = true) ∧
    (∀ (svc : MailChimpService) (store : SessionStore) (req : GatedReq)
        (render : ConnectionStatus → Json),
      isEnvelope
        (ApiResponse.toJson render (statusHandler svc store req).body) =
        true) ∧
    (∀ (svc : MailChimpService) (u : Upstream) (store : SessionStore)
        (req : GatedReq) (render : ListsResponse → Json),
      isEnvelope
        (ApiResponse.toJson render (listsHandler svc u store req).body) =
        true) ∧
    (∀ (svc : MailChimpService) (u : Upstream) (store : SessionStore)
        (req : CampaignSendReq) (render : CampaignResponse → Json),
      isEnvelope
        (ApiResponse.toJson render
          (campaignSendHandler svc u store req).body) = true) ∧
    (∀ (svc : MailChimpService) (store : SessionStore) (req : GatedReq)
        (render : MessageData → Json),
      isEnvelope
        (ApiResponse.toJson render (disconnectHandler svc store req).body)
        = true) ∧
    (∀ render : Unit → Json,
      isEnvelope (ApiResponse.toJson render notFoundResponse) = true) ∧
    (∀ render : Unit → Json,
      isEnvelope (ApiResponse.toJson render errorMiddlewareResponse) =
        true) := by
  refine ⟨fun render => envelopeOk_toJson render _ rfl,
    fun svc u store req render => envelopeOk_toJson render _
      (envelopeOk_oauthToken svc u store req),
    fun svc store req render => envelopeOk_toJson render _
      (envelopeOk_status svc store req),
    fun svc u store req render => envelopeOk_toJson render _
      (envelopeOk_lists svc u store req),
    fun svc u store req render => envelopeOk_toJson render _
      (envelopeOk_campaignSend svc u store req),
    fun svc store req render => envelopeOk_toJson render _ rfl,
    fun render => envelopeOk_toJson render _ rfl,
    fun render => envelopeOk_toJson render _ rfl⟩

/-- A broker-generated session identifier is never the empty string: it
always contains the two dash separators. -/
theorem generateSessionId_ne_empty (ip : String) (now : Nat)
    (rand : String) : generateSessionId ip now rand ≠ "" := by
  unfold generateSessionId
  intro h
  have h2 := congrArg String.length h
  simp only [String.length_append] at h2
  have hd : ("-" : String).length = 1 := rfl
  rw [hd] at h2
  have he : ("" : String).length = 0 := rfl
  rw [he] at h2
  omega

/-- C9: for every upstream failure of a Provider Client call, the error
message surfaced to the external caller is a fixed generic string that
does not depend on the raw provider error body; two runs failing at the
same step with different provider error bodies produce the same
client-visible message. -/
theorem C9_theorem (svc : MailChimpService) (u : Upstream) :
    (∀ (code : String) (e : AxiosError),
      u.exchange svc.config code = .error e →
      svc.exchangeCodeForToken u code =
        .error "Failed to exchange code for token") ∧
    (∀ (t : String) (e : AxiosError), u.metadata t = .error e →
      svc.getUserMetadata u t = .error "Failed to fetch user metadata") ∧
    (∀ (t dc : String) (e : AxiosError), u.lists t dc = .error e →
      svc.getLists u t dc = .error "Failed to fetch email lists") ∧
    (∀ (t dc l s f r : String) (e : AxiosError),
      u.create t dc l s f r = .error e →
      svc.createCampaign u t dc l s f r =
        .error "Failed to create campaign") ∧
    (∀ (t dc cid h : String) (e : AxiosError),
      u.content t dc cid h = .error e →
      svc.setCampaignContent u t dc cid h =
        .error "Failed to set campaign content") ∧
    (∀ (t dc cid : String) (e : AxiosError), u.send t dc cid = .error e →
      svc.sendCampaign u t dc cid = .error "Failed to send campaign") ∧
    (∀ (u1 u2 : Upstream) (store : SessionStore) (req : OAuthTokenReq)
        (e1 e2 : AxiosError),
      falsy req.code = false →
      u1.exchange svc.config (req.code.getD "") = .error e1 →
      u2.exchange svc.config (req.code.getD "") = .error e2 →
      (oauthTokenHandler svc u1 store req).body =
        (oauthTokenHandler svc u2 store req).body ∧
      (oauthTokenHandler svc u1 store req).body.message =
        some "Failed to exchange code for token") ∧
    (∀ (u1 u2 : Upstream) (store : SessionStore) (req : GatedReq)
        (session : UserSession) (e1 e2 : AxiosError),
      store (getSessionId req.headerSessionId req.generated) =
        some session →
      u1.lists session.accessToken session.metadata.dc = .error e1 →
      u2.lists session.accessToken session.metadata.dc = .error e2 →
      (listsHandler svc u1 store req).body =
        (listsHandler svc u2 store req).body ∧
      (listsHandler svc u1 store req).body.message =
        some "Failed to fetch email lists") := by
  refine ⟨?_, ?_, ?_, ?_, ?_, ?_, ?_, ?_⟩
  · intro code e h
    unfold MailChimpService.exchangeCodeForToken
    simp [h]
  · intro t e h
    unfold MailChimpService.getUserMetadata
    simp [h]
  · intro t dc e h
    unfold MailChimpService.getLists
    simp [h]
  · intro t dc l s f r e h
    unfold MailChimpService.createCampaign
    simp [h]
  · intro t dc cid hc e h
    unfold MailChimpService.setCampaignContent
    simp [h]
  · intro t dc cid e h
    unfold MailChimpService.sendCampaign
    simp [h]
  · intro u1 u2 store req e1 e2 hc h1 h2
    unfold oauthTokenHandler MailChimpService.exchangeCodeForToken
    simp [hc, h1, h2]
  · intro u1 u2 store req session e1 e2 hs h1 h2
    unfold listsHandler MailChimpService.getUserSession
      MailChimpService.getLists
    simp [hs, h1, h2]

/-- Witness for C9: two token-exchange failures and two lists failures
with different provider bodies surface the same fixed messages. -/
theorem C9_witness :
    svcA.exchangeCodeForToken upstreamExchangeFailA "abc123" =
      .error "Failed to exchange code for token" ∧
    ((oauthTokenHandler svcA upstreamExchangeFailA emptyStore
        reqTokSample).body =
      (oauthTokenHandler svcA upstreamExchangeFailB emptyStore
        reqTokSample).body ∧
     (oauthTokenHandler svcA upstreamExchangeFailA emptyStore
        reqTokSample).body.message =
       some "Failed to exchange code for token") ∧
    ((listsHandler svcA upstreamListsFailA storeWithAcme gatedSid1).body =
      (listsHandler svcA upstreamListsFailB storeWithAcme gatedSid1).body ∧
     (listsHandler svcA upstreamListsFailA storeWithAcme
        gatedSid1).body.message = some "Failed to fetch email lists") := by
  refine ⟨?_, ?_, ?_⟩
  · exact (C9_theorem svcA upstreamExchangeFailA).1 "abc123"
      ⟨"invalid_grant: code expired"⟩ rfl
  · exact (C9_theorem svcA upstreamOk).2.2.2.2.2.2.1 upstreamExchangeFailA
      upstreamExchangeFailB emptyStore reqTokSample
      ⟨"invalid_grant: code expired"⟩ ⟨"temporarily_unavailable"⟩
      (by decide) rfl rfl
  · exact (C9_theorem svcA upstreamOk).2.2.2.2.2.2.2 upstreamListsFailA
      upstreamListsFailB storeWithAcme gatedSid1 sessionAcme
      ⟨"429 too many requests"⟩ ⟨"503 service unavailable"⟩ (by decide)
      rfl rfl

/-- C10: the session map is one module-level store shared by every
MailChimpService instance: a record stored through any instance is read
back by any other instance, is removable through any instance, and a
session established by the redirect-callback entry point (which uses the
instance built in src/index.ts) is visible as connected to the /status
endpoint (which uses the distinct instance built in
src/routes/mailchimp.ts), for arbitrary pairs of instances. -/
theorem C10_theorem (svc1 svc2 svc3 : MailChimpService)
    (store : SessionStore) (sid tok : String) (md : MailChimpMetadata)
    (now : Nat) :
    svc2.getUserSession (svc1.storeUserSession store sid tok md now) sid =
      some ⟨tok, md, now⟩ ∧
    svc3.getUserSession
      (svc2.removeUserSession (svc1.storeUserSession store sid tok md now)
        sid) sid = none ∧
    (∀ (u : Upstream) (req : CallbackReq) (g : String)
        (tokr : MailChimpTokenResponse) (mdr : MailChimpMetadata),
      truthy req.error = false → falsy req.code = false →
      u.exchange svc1.config (req.code.getD "") = .ok tokr →
      u.metadata tokr.access_token = .ok mdr →
      statusHandler svc2 (callbackHandler svc1 u store req).store
        ⟨some (generateSessionId req.ip req.now req.rand), g⟩ =
        ⟨200,
         ⟨true, none,
          some ⟨true, some mdr.accountname, some mdr.login.email⟩⟩,
         (callbackHandler svc1 u store req).store⟩) := by
  refine ⟨?_, ?_, ?_⟩
  · unfold MailChimpService.getUserSession MailChimpService.storeUserSession
    simp
  · unfold MailChimpService.getUserSession MailChimpService.removeUserSession
    simp
  · intro u req g tokr mdr he hc hex hmd
    have hne := generateSessionId_ne_empty req.ip req.now req.rand
    unfold callbackHandler MailChimpService.exchangeCodeForToken
      MailChimpService.getUserMetadata
    simp only [he, hc, hex, hmd, Bool.false_eq_true, if_false]
    unfold statusHandler MailChimpService.getUserSession
      MailChimpService.storeUserSession getSessionId jsOr
    simp [hne]

/-- Witness for C10: a callback run through one instance makes /status
through the other instance report the connected Acme account. -/
theorem C10_witness :
    svcB.getUserSession
      (svcA.storeUserSession emptyStore "sid-1" "tok_1" mdAcme 5) "sid-1" =
      some ⟨"tok_1", mdAcme, 5⟩ ∧
    svcA.getUserSession
      (svcB.removeUserSession
        (svcA.storeUserSession emptyStore "sid-1" "tok_1" mdAcme 5)
        "sid-1") "sid-1" = none ∧
    statusHandler svcB
      (callbackHandler svcA upstreamOk emptyStore callbackReqSample).store
      ⟨some "1.2.3.4-5-r0", "gen-2"⟩ =
      ⟨200, ⟨true, none, some ⟨true, some "Acme", some "a@acme.com"⟩⟩,
       (callbackHandler svcA upstreamOk emptyStore
         callbackReqSample).store⟩ := by
  have h := C10_theorem svcA svcB svcA emptyStore "sid-1" "tok_1" mdAcme 5
  exact ⟨h.1, h.2.1,
    h.2.2 upstreamOk callbackReqSample "gen-2" tokSample mdAcme (by decide)
      (by decide) rfl rfl⟩
